import Mathlib

/-!
Verification of the RTP-MIDI recovery-journal section decoder
(src/rtpMidi_Parser_JournalSection.hpp, function decodeJournalSection).

The decoder walks the journal section of an RTP-MIDI packet: a top-level
header (flags byte + 16-bit checkpoint sequence number), then — when the
A flag is set — a loop over (TOTCHAN+1) channel journals, each a 24-bit
channel-flags field followed by the chapters whose flag bits are set, in
the wire order P, C, M, W, N, E, T, A.

The embedding below follows the C++ source statement by statement:
  - the ring buffer is a list of bytes; RingBuffer::getLength() is the
    list length and RingBuffer::peek(i) is indexing with default 0 (the
    source peeks out of range in a few places; the ring buffer returns
    whatever is stored there, modelled here as 0);
  - bytes are Nat with an explicit % 256 (peek returns a uint8_t);
  - the two reference parameters i (cursor) and minimumLen (length
    budget) become an explicit state record St threaded through every
    step;
  - every C++ early return becomes an Except error carrying the status
    and the state at the return; falling off the end of the C++ function
    body (which has no return statement — the function ends without
    producing a defined status) is modelled as ret = none in DecodeResult.
-/

namespace RTPMIDI

/-- The two status values that decodeJournalSection explicitly returns. -/
inductive ParserStatus where
  | PARSER_NOT_ENOUGH_DATA
  | PARSER_UNEXPECTED_DATA
deriving DecidableEq, Repr

/-- The two by-reference size_t parameters of decodeJournalSection:
the read cursor i and the running minimum-length budget minimumLen. -/
structure St where
  i : Nat
  minimumLen : Nat
deriving DecidableEq, Repr

/-- Observable outcome of one call to decodeJournalSection: the returned
status (none when control falls off the end of the function body, which
has no return statement) and the final values of the two by-reference
parameters. -/
structure DecodeResult where
  ret : Option ParserStatus
  i : Nat
  minimumLen : Nat
deriving DecidableEq, Repr

/-- Modelled from the spec: the bit-mask constants live in the
repository's rtpMidi_Defs.h, which is not part of the provided source.
The spec's normative wire layout gives the top journal header byte as
S | Y | A | H | TOTCHAN(4 bits), most significant bit first. -/
def RTP_MIDI_JS_FLAG_S : Nat := 0x80

/-- Modelled from the spec: Y (system journal present) bit of the top
journal header byte, layout S | Y | A | H | TOTCHAN(4). -/
def RTP_MIDI_JS_FLAG_Y : Nat := 0x40

/-- Modelled from the spec: A (channel journals present) bit of the top
journal header byte, layout S | Y | A | H | TOTCHAN(4). -/
def RTP_MIDI_JS_FLAG_A : Nat := 0x20

/-- Modelled from the spec: H (enhanced Chapter C) bit of the top
journal header byte, layout S | Y | A | H | TOTCHAN(4). -/
def RTP_MIDI_JS_FLAG_H : Nat := 0x10

/-- Modelled from the spec: low 4 bits of the top header byte are
TOTCHAN (total channels minus one). -/
def RTP_MIDI_JS_MASK_TOTALCHANNELS : Nat := 0x0F

/-- Modelled from the spec: the 24-bit channel journal header is
S | CHAN(4) | H | LENGTH(10) | chapter flags P,C,M,W,N,E,T,A (low byte).
The source assembles chanflags by appending a zero fourth byte before
big-endian conversion, so the 24-bit field sits shifted left by 8 inside
the 32-bit chanflags value; the masks below address that shifted value
(chapter flag bits at positions 15..8). -/
def RTP_MIDI_CJ_FLAG_P : Nat := 0x8000

/-- Modelled from the spec: Chapter C flag bit of chanflags (shifted
channel-journal header, see RTP_MIDI_CJ_FLAG_P). -/
def RTP_MIDI_CJ_FLAG_C : Nat := 0x4000

/-- Modelled from the spec: Chapter M flag bit of chanflags. -/
def RTP_MIDI_CJ_FLAG_M : Nat := 0x2000

/-- Modelled from the spec: Chapter W flag bit of chanflags. -/
def RTP_MIDI_CJ_FLAG_W : Nat := 0x1000

/-- Modelled from the spec: Chapter N flag bit of chanflags. -/
def RTP_MIDI_CJ_FLAG_N : Nat := 0x0800

/-- Modelled from the spec: Chapter E flag bit of chanflags. -/
def RTP_MIDI_CJ_FLAG_E : Nat := 0x0400

/-- Modelled from the spec: Chapter T flag bit of chanflags. -/
def RTP_MIDI_CJ_FLAG_T : Nat := 0x0200

/-- Modelled from the spec: Chapter A flag bit of chanflags. -/
def RTP_MIDI_CJ_FLAG_A : Nat := 0x0100

/-- Modelled from the spec: the 10-bit LENGTH field of the (shifted)
channel-journal header, advisory only in this decoder. -/
def RTP_MIDI_CJ_MASK_LENGTH : Nat := 0x03FF0000

/-- Modelled from the spec: Chapter N header is 16-bit big-endian
B | LOGLISTLEN(7) | LOW(4) | HIGH(4); the 7-bit log-list length sits in
bits 14..8. -/
def RTP_MIDI_CJ_CHAPTER_N_MASK_LENGTH : Nat := 0x7F00

/-- Modelled from the spec: LOW nibble of the Chapter N header. -/
def RTP_MIDI_CJ_CHAPTER_N_MASK_LOW : Nat := 0x00F0

/-- Modelled from the spec: HIGH nibble of the Chapter N header. -/
def RTP_MIDI_CJ_CHAPTER_N_MASK_HIGH : Nat := 0x000F

/-- Modelled from the spec: low 7 bits of the Chapter E header byte are
its length field (count encoded as n, actual count n+1). -/
def RTP_MIDI_CJ_CHAPTER_E_MASK_LENGTH : Nat := 0x7F

/-- Modelled from the spec: low 7 bits of the Chapter A header byte are
its length field (count encoded as n, actual count n+1). -/
def RTP_MIDI_CJ_CHAPTER_A_MASK_LENGTH : Nat := 0x7F

/-- RingBuffer::peek: non-destructive read of the byte at index idx.
Out-of-range peeks return the (unspecified) resident byte; modelled as 0.
The % 256 records that peek returns a uint8_t. -/
def peek (buffer : List Nat) (idx : Nat) : Nat :=
  buffer.getD idx 0 % 256

/-- The source's two-line length-check pattern
(minimumLen += n; if (buffer.getLength() < minimumLen) return
PARSER_NOT_ENOUGH_DATA;), factored out. Note that the budget increment
happens before the comparison, so a failing check leaves minimumLen at
its incremented value while the cursor is untouched. -/
def require (len n : Nat) (s : St) : Except (ParserStatus × St) St :=
  if len < s.minimumLen + n then
    .error (.PARSER_NOT_ENOUGH_DATA, ⟨s.i, s.minimumLen + n⟩)
  else
    .ok ⟨s.i, s.minimumLen + n⟩

/-- Propagate a C++ early return (error) or continue with the new state. -/
def andThen (r : Except (ParserStatus × St) St)
    (f : St → Except (ParserStatus × St) St) : Except (ParserStatus × St) St :=
  match r with
  | .error e => .error e
  | .ok s => f s

/-- Chapter P (program change): require 3 bytes, skip 3 bytes. -/
def chapterP (buffer : List Nat) (s : St) : Except (ParserStatus × St) St :=
  andThen (require buffer.length 3 s) fun s1 =>
    .ok ⟨s1.i + 3, s1.minimumLen⟩

/-- Chapter C (control change): recognized as a flag only; the source
block is empty, contributing nothing to cursor or budget. -/
def chapterC (_buffer : List Nat) (s : St) : Except (ParserStatus × St) St :=
  .ok s

/-- Chapter M (parameter system): recognized as a flag only; the source
block is empty, contributing nothing to cursor or budget. -/
def chapterM (_buffer : List Nat) (s : St) : Except (ParserStatus × St) St :=
  .ok s

/-- Chapter W (pitch wheel): require 2 bytes, skip 2 bytes. -/
def chapterW (buffer : List Nat) (s : St) : Except (ParserStatus × St) St :=
  andThen (require buffer.length 2 s) fun s1 =>
    .ok ⟨s1.i + 2, s1.minimumLen⟩

/-- The source's offbit-octet count computation for Chapter N:
low <= high gives high - low + 1; the sentinel pairs (15,0) and (15,1)
give 0; any other low > high pair is the early return
PARSER_UNEXPECTED_DATA, modelled as none. -/
def chapterN_offbitCount (low high : Nat) : Option Nat :=
  if low ≤ high then some (high - low + 1)
  else if low = 15 ∧ high = 0 then some 0
  else if low = 15 ∧ high = 1 then some 0
  else none

/-- Chapter N (note on/off): require 2 bytes, read the big-endian header,
split it into log-list count and low/high nibbles, compute the offbit
count (rejecting illegal low > high pairs), apply the 127 -> 128 escape,
then require and skip logListCount * 2 + offbitCount bytes. -/
def chapterN (buffer : List Nat) (s : St) : Except (ParserStatus × St) St :=
  andThen (require buffer.length 2 s) fun s1 =>
    let header : Nat := peek buffer s1.i * 256 + peek buffer (s1.i + 1)
    let s2 : St := ⟨s1.i + 2, s1.minimumLen⟩
    let logListCount : Nat := (header &&& RTP_MIDI_CJ_CHAPTER_N_MASK_LENGTH) >>> 8
    let low : Nat := (header &&& RTP_MIDI_CJ_CHAPTER_N_MASK_LOW) >>> 4
    let high : Nat := header &&& RTP_MIDI_CJ_CHAPTER_N_MASK_HIGH
    match chapterN_offbitCount low high with
    | none => .error (.PARSER_UNEXPECTED_DATA, s2)
    | some offbitCount =>
      let logListCount' : Nat :=
        if logListCount = 127 ∧ low = 15 ∧ high = 0 then 128 else logListCount
      andThen (require buffer.length (logListCount' * 2 + offbitCount) s2) fun s3 =>
        .ok ⟨s3.i + (logListCount' * 2 + offbitCount), s3.minimumLen⟩

/-- Chapter E (note command extras): require 1 byte, read the header,
log_count = (header & mask) + 1, require log_count * 2 bytes, then the
source's entry loop peeks 2 bytes per entry (values discarded), advancing
the cursor by log_count * 2. -/
def chapterE (buffer : List Nat) (s : St) : Except (ParserStatus × St) St :=
  andThen (require buffer.length 1 s) fun s1 =>
    let header : Nat := peek buffer s1.i
    let log_count : Nat := (header &&& RTP_MIDI_CJ_CHAPTER_E_MASK_LENGTH) + 1
    andThen (require buffer.length (log_count * 2) ⟨s1.i + 1, s1.minimumLen⟩) fun s2 =>
      .ok ⟨s2.i + log_count * 2, s2.minimumLen⟩

/-- Chapter T (channel aftertouch): require 1 byte, skip 1 byte. -/
def chapterT (buffer : List Nat) (s : St) : Except (ParserStatus × St) St :=
  andThen (require buffer.length 1 s) fun s1 =>
    .ok ⟨s1.i + 1, s1.minimumLen⟩

/-- Chapter A (poly aftertouch), exactly as in the source: require 2
bytes (only — there is no second length check), read the header byte,
log_count = (flags & mask) + 1, then the entry loop peeks 2 bytes per
entry with no preceding length check, advancing the cursor by
1 + log_count * 2 in total. -/
def chapterA (buffer : List Nat) (s : St) : Except (ParserStatus × St) St :=
  andThen (require buffer.length 2 s) fun s1 =>
    let flags : Nat := peek buffer s1.i
    let log_count : Nat := (flags &&& RTP_MIDI_CJ_CHAPTER_A_MASK_LENGTH) + 1
    .ok ⟨s1.i + 1 + log_count * 2, s1.minimumLen⟩

/-- One iteration of the channel-journal loop body: peek the three
channel-flags bytes (no length check occurs inside the loop body), build
the shifted 32-bit chanflags value, then run the chapters whose flag
bits are set, in the source order P, C, M, W, N, E, T, A. -/
def channelIteration (buffer : List Nat) (s : St) : Except (ParserStatus × St) St :=
  let chanflags : Nat :=
    peek buffer s.i * 16777216 + peek buffer (s.i + 1) * 65536 +
      peek buffer (s.i + 2) * 256
  let chanjourlen : Nat := (chanflags &&& RTP_MIDI_CJ_MASK_LENGTH) >>> 8
  let s0 : St := ⟨s.i + 3, s.minimumLen⟩
  andThen (if chanflags &&& RTP_MIDI_CJ_FLAG_P ≠ 0 then chapterP buffer s0 else .ok s0) fun s1 =>
  andThen (if chanflags &&& RTP_MIDI_CJ_FLAG_C ≠ 0 then chapterC buffer s1 else .ok s1) fun s2 =>
  andThen (if chanflags &&& RTP_MIDI_CJ_FLAG_M ≠ 0 then chapterM buffer s2 else .ok s2) fun s3 =>
  andThen (if chanflags &&& RTP_MIDI_CJ_FLAG_W ≠ 0 then chapterW buffer s3 else .ok s3) fun s4 =>
  andThen (if chanflags &&& RTP_MIDI_CJ_FLAG_N ≠ 0 then chapterN buffer s4 else .ok s4) fun s5 =>
  andThen (if chanflags &&& RTP_MIDI_CJ_FLAG_E ≠ 0 then chapterE buffer s5 else .ok s5) fun s6 =>
  andThen (if chanflags &&& RTP_MIDI_CJ_FLAG_T ≠ 0 then chapterT buffer s6 else .ok s6) fun s7 =>
  andThen (if chanflags &&& RTP_MIDI_CJ_FLAG_A ≠ 0 then chapterA buffer s7 else .ok s7) fun s8 =>
  .ok s8

/-- The for-loop over the totalChannels channel journals. -/
def channelLoop (buffer : List Nat) : Nat → St → Except (ParserStatus × St) St
  | 0, s => .ok s
  | n + 1, s =>
    match channelIteration buffer s with
    | .error e => .error e
    | .ok s1 => channelLoop buffer n s1

/-- decodeJournalSection, statement by statement: require 1 byte, read
the flags byte and derive totalChannels; require 2 more bytes, read the
big-endian checkpoint sequence number; the S and Y flag blocks are empty;
if the A flag is set, require 3 bytes once (before the loop, exactly as
in the source) and run the channel loop; the H flag block is empty; then
control falls off the end of the function body (ret = none — the source
has no return statement producing a success value). -/
def decodeJournalSection (buffer : List Nat) (i : Nat) (minimumLen : Nat) : DecodeResult :=
  match require buffer.length 1 ⟨i, minimumLen⟩ with
  | .error (st, e) => ⟨some st, e.i, e.minimumLen⟩
  | .ok s0 =>
    let flags : Nat := peek buffer s0.i
    let totalChannels : Nat := (flags &&& RTP_MIDI_JS_MASK_TOTALCHANNELS) + 1
    let s1 : St := ⟨s0.i + 1, s0.minimumLen⟩
    match require buffer.length 2 s1 with
    | .error (st, e) => ⟨some st, e.i, e.minimumLen⟩
    | .ok s2 =>
      let checkPoint : Nat := peek buffer s2.i * 256 + peek buffer (s2.i + 1)
      let s3 : St := ⟨s2.i + 2, s2.minimumLen⟩
      if flags &&& RTP_MIDI_JS_FLAG_A ≠ 0 then
        match require buffer.length 3 s3 with
        | .error (st, e) => ⟨some st, e.i, e.minimumLen⟩
        | .ok s4 =>
          match channelLoop buffer totalChannels s4 with
          | .error (st, e) => ⟨some st, e.i, e.minimumLen⟩
          | .ok s5 => ⟨none, s5.i, s5.minimumLen⟩
      else
        ⟨none, s3.i, s3.minimumLen⟩

/-- A Chapter N header whose LOW nibble exceeds its HIGH nibble outside
the two sentinel pairs (15,0) and (15,1), located at byte position p of
the buffer (the nibble extractions are the source's own). -/
def badNHeaderAt (buffer : List Nat) (p : Nat) : Prop :=
  ((peek buffer p * 256 + peek buffer (p + 1)) &&& RTP_MIDI_CJ_CHAPTER_N_MASK_HIGH) <
      (((peek buffer p * 256 + peek buffer (p + 1)) &&& RTP_MIDI_CJ_CHAPTER_N_MASK_LOW) >>> 4) ∧
    ¬((((peek buffer p * 256 + peek buffer (p + 1)) &&& RTP_MIDI_CJ_CHAPTER_N_MASK_LOW) >>> 4) = 15 ∧
      ((peek buffer p * 256 + peek buffer (p + 1)) &&& RTP_MIDI_CJ_CHAPTER_N_MASK_HIGH) = 0) ∧
    ¬((((peek buffer p * 256 + peek buffer (p + 1)) &&& RTP_MIDI_CJ_CHAPTER_N_MASK_LOW) >>> 4) = 15 ∧
      ((peek buffer p * 256 + peek buffer (p + 1)) &&& RTP_MIDI_CJ_CHAPTER_N_MASK_HIGH) = 1)

/-- Cursor/budget growth relation between two states: the cursor and
budget both grow, and the budget grows by at most as much as the cursor.
Written additively to stay in Nat. -/
def boundsFrom (b s' : St) : Prop :=
  b.i ≤ s'.i ∧ b.minimumLen ≤ s'.minimumLen ∧
    s'.minimumLen + b.i ≤ b.minimumLen + s'.i

/-- What an early return of the decoder can be: a NotEnoughData return
whose (already incremented) budget exceeds the available length, or an
UnexpectedData return issued immediately after reading an illegal
Chapter N header, which therefore sits at cursor position e.i - 2. -/
def errP (buffer : List Nat) (st : ParserStatus) (e : St) : Prop :=
  (st = .PARSER_NOT_ENOUGH_DATA ∧ buffer.length < e.minimumLen) ∨
    (st = .PARSER_UNEXPECTED_DATA ∧ 2 ≤ e.i ∧ badNHeaderAt buffer (e.i - 2))

/-- A decoding step that satisfies boundsFrom on success and errP on an
early return, from every start state. -/
def stepSpec (buffer : List Nat) (f : St → Except (ParserStatus × St) St) : Prop :=
  ∀ s, (∀ s', f s = .ok s' → boundsFrom s s') ∧
    (∀ st e, f s = .error (st, e) → errP buffer st e)

theorem require_ok {len n : Nat} {s s' : St} (h : require len n s = .ok s') :
    ¬ len < s.minimumLen + n ∧ s' = ⟨s.i, s.minimumLen + n⟩ := by
  by_cases hc : len < s.minimumLen + n
  · rw [require, if_pos hc] at h; cases h
  · rw [require, if_neg hc] at h
    cases h
    exact ⟨hc, rfl⟩

theorem require_error {len n : Nat} {s e : St} {st : ParserStatus}
    (h : require len n s = .error (st, e)) :
    len < s.minimumLen + n ∧ st = .PARSER_NOT_ENOUGH_DATA ∧ e = ⟨s.i, s.minimumLen + n⟩ := by
  by_cases hc : len < s.minimumLen + n
  · rw [require, if_pos hc] at h
    cases h
    exact ⟨hc, rfl, rfl⟩
  · rw [require, if_neg hc] at h; cases h

theorem require_pos {len n : Nat} {s : St} (h : ¬ len < s.minimumLen + n) :
    require len n s = .ok ⟨s.i, s.minimumLen + n⟩ := by
  rw [require, if_neg h]

theorem require_neg {len n : Nat} {s : St} (h : len < s.minimumLen + n) :
    require len n s = .error (.PARSER_NOT_ENOUGH_DATA, ⟨s.i, s.minimumLen + n⟩) := by
  rw [require, if_pos h]

theorem andThen_ok_elim {r : Except (ParserStatus × St) St}
    {f : St → Except (ParserStatus × St) St} {s' : St}
    (h : andThen r f = .ok s') : ∃ s1, r = .ok s1 ∧ f s1 = .ok s' := by
  cases r with
  | error pe => simp [andThen] at h
  | ok s1 => exact ⟨s1, rfl, h⟩

theorem andThen_error_elim {r : Except (ParserStatus × St) St}
    {f : St → Except (ParserStatus × St) St} {st : ParserStatus} {e : St}
    (h : andThen r f = .error (st, e)) :
    r = .error (st, e) ∨ ∃ s1, r = .ok s1 ∧ f s1 = .error (st, e) := by
  cases r with
  | error pe =>
    left
    simp only [andThen] at h
    exact h
  | ok s1 => exact .inr ⟨s1, rfl, h⟩

theorem boundsFrom_refl (s : St) : boundsFrom s s := by
  refine ⟨le_refl _, le_refl _, ?_⟩
  omega

theorem boundsFrom_trans {a b c : St} (h1 : boundsFrom a b) (h2 : boundsFrom b c) :
    boundsFrom a c := by
  obtain ⟨x1, x2, x3⟩ := h1
  obtain ⟨y1, y2, y3⟩ := h2
  exact ⟨le_trans x1 y1, le_trans x2 y2, by omega⟩

theorem chapterN_offbitCount_eq_none {low high : Nat} :
    chapterN_offbitCount low high = none ↔
      high < low ∧ ¬(low = 15 ∧ high = 0) ∧ ¬(low = 15 ∧ high = 1) := by
  unfold chapterN_offbitCount
  by_cases h1 : low ≤ high
  · rw [if_pos h1]
    constructor
    · intro h; cases h
    · rintro ⟨hlt, -, -⟩; omega
  · rw [if_neg h1]
    by_cases h2 : low = 15 ∧ high = 0
    · rw [if_pos h2]
      constructor
      · intro h; cases h
      · rintro ⟨-, hn, -⟩; exact absurd h2 hn
    · rw [if_neg h2]
      by_cases h3 : low = 15 ∧ high = 1
      · rw [if_pos h3]
        constructor
        · intro h; cases h
        · rintro ⟨-, -, hn⟩; exact absurd h3 hn
      · rw [if_neg h3]
        constructor
        · intro _; exact ⟨by omega, h2, h3⟩
        · intro _; rfl

theorem chapterP_stepSpec (buffer : List Nat) : stepSpec buffer (chapterP buffer) := by
  intro s
  constructor
  · intro s' h
    obtain ⟨s1, hr, hf⟩ := andThen_ok_elim h
    obtain ⟨hc, rfl⟩ := require_ok hr
    cases hf
    dsimp only [boundsFrom]
    omega
  · intro st e h
    rcases andThen_error_elim h with hr | ⟨s1, hr, hf⟩
    · obtain ⟨hc, hst, he⟩ := require_error hr
      exact .inl ⟨hst, by subst he; simpa using hc⟩
    · cases hf

theorem chapterW_stepSpec (buffer : List Nat) : stepSpec buffer (chapterW buffer) := by
  intro s
  constructor
  · intro s' h
    obtain ⟨s1, hr, hf⟩ := andThen_ok_elim h
    obtain ⟨hc, rfl⟩ := require_ok hr
    cases hf
    dsimp only [boundsFrom]
    omega
  · intro st e h
    rcases andThen_error_elim h with hr | ⟨s1, hr, hf⟩
    · obtain ⟨hc, hst, he⟩ := require_error hr
      exact .inl ⟨hst, by subst he; simpa using hc⟩
    · cases hf

theorem chapterT_stepSpec (buffer : List Nat) : stepSpec buffer (chapterT buffer) := by
  intro s
  constructor
  · intro s' h
    obtain ⟨s1, hr, hf⟩ := andThen_ok_elim h
    obtain ⟨hc, rfl⟩ := require_ok hr
    cases hf
    dsimp only [boundsFrom]
    omega
  · intro st e h
    rcases andThen_error_elim h with hr | ⟨s1, hr, hf⟩
    · obtain ⟨hc, hst, he⟩ := require_error hr
      exact .inl ⟨hst, by subst he; simpa using hc⟩
    · cases hf

theorem chapterC_stepSpec (buffer : List Nat) : stepSpec buffer (chapterC buffer) := by
  intro s
  exact ⟨fun s' h => by cases h; exact boundsFrom_refl s, fun st e h => by cases h⟩

theorem chapterM_stepSpec (buffer : List Nat) : stepSpec buffer (chapterM buffer) := by
  intro s
  exact ⟨fun s' h => by cases h; exact boundsFrom_refl s, fun st e h => by cases h⟩

theorem chapterE_stepSpec (buffer : List Nat) : stepSpec buffer (chapterE buffer) := by
  intro s
  constructor
  · intro s' h
    obtain ⟨s1, hr, hf⟩ := andThen_ok_elim h
    obtain ⟨hc, rfl⟩ := require_ok hr
    obtain ⟨s2, hr2, hf2⟩ := andThen_ok_elim hf
    obtain ⟨hc2, rfl⟩ := require_ok hr2
    cases hf2
    dsimp only [boundsFrom]
    omega
  · intro st e h
    rcases andThen_error_elim h with hr | ⟨s1, hr, hf⟩
    · obtain ⟨hc, hst, he⟩ := require_error hr
      exact .inl ⟨hst, by subst he; simpa using hc⟩
    · obtain ⟨hc, rfl⟩ := require_ok hr
      rcases andThen_error_elim hf with hr2 | ⟨s2, hr2, hf2⟩
      · obtain ⟨hc2, hst2, he2⟩ := require_error hr2
        exact .inl ⟨hst2, by subst he2; simpa using hc2⟩
      · cases hf2

theorem chapterA_stepSpec (buffer : List Nat) : stepSpec buffer (chapterA buffer) := by
  intro s
  constructor
  · intro s' h
    obtain ⟨s1, hr, hf⟩ := andThen_ok_elim h
    obtain ⟨hc, rfl⟩ := require_ok hr
    cases hf
    dsimp only [boundsFrom]
    omega
  · intro st e h
    rcases andThen_error_elim h with hr | ⟨s1, hr, hf⟩
    · obtain ⟨hc, hst, he⟩ := require_error hr
      exact .inl ⟨hst, by subst he; simpa using hc⟩
    · cases hf

theorem chapterN_stepSpec (buffer : List Nat) : stepSpec buffer (chapterN buffer) := by
  intro s
  constructor
  · intro s' h
    obtain ⟨s1, hr, hf⟩ := andThen_ok_elim h
    obtain ⟨hc, rfl⟩ := require_ok hr
    dsimp only [chapterN] at hf
    revert hf
    cases hoff : chapterN_offbitCount
        (((peek buffer s.i * 256 + peek buffer (s.i + 1)) &&& RTP_MIDI_CJ_CHAPTER_N_MASK_LOW) >>> 4)
        ((peek buffer s.i * 256 + peek buffer (s.i + 1)) &&& RTP_MIDI_CJ_CHAPTER_N_MASK_HIGH) with
    | none => intro hf; cases hf
    | some offbitCount =>
      intro hf
      obtain ⟨s2, hr2, hf2⟩ := andThen_ok_elim hf
      obtain ⟨hc2, rfl⟩ := require_ok hr2
      cases hf2
      dsimp only [boundsFrom]
      omega
  · intro st e h
    rcases andThen_error_elim h with hr | ⟨s1, hr, hf⟩
    · obtain ⟨hc, hst, he⟩ := require_error hr
      exact .inl ⟨hst, by subst he; simpa using hc⟩
    · obtain ⟨hc, rfl⟩ := require_ok hr
      dsimp only at hf
      revert hf
      cases hoff : chapterN_offbitCount
          (((peek buffer s.i * 256 + peek buffer (s.i + 1)) &&& RTP_MIDI_CJ_CHAPTER_N_MASK_LOW) >>> 4)
          ((peek buffer s.i * 256 + peek buffer (s.i + 1)) &&& RTP_MIDI_CJ_CHAPTER_N_MASK_HIGH) with
      | none =>
        intro hf
        cases hf
        refine .inr ⟨rfl, by dsimp only; omega, ?_⟩
        have hbad := chapterN_offbitCount_eq_none.mp hoff
        simpa [badNHeaderAt] using hbad
      | some offbitCount =>
        intro hf
        rcases andThen_error_elim hf with hr2 | ⟨s2, hr2, hf2⟩
        · obtain ⟨hc2, hst2, he2⟩ := require_error hr2
          exact .inl ⟨hst2, by subst he2; simpa using hc2⟩
        · cases hf2

theorem stepSpec_pure (buffer : List Nat) : stepSpec buffer (fun s => .ok s) := by
  intro s
  exact ⟨fun s' h => by cases h; exact boundsFrom_refl s, fun st e h => by cases h⟩

theorem stepSpec_cond (buffer : List Nat) (c : Prop) [Decidable c]
    {f : St → Except (ParserStatus × St) St} (hf : stepSpec buffer f) :
    stepSpec buffer (fun s => if c then f s else .ok s) := by
  intro s
  by_cases hc : c
  · simpa [hc] using hf s
  · simp only [if_neg hc]
    exact ⟨fun s' h => by cases h; exact boundsFrom_refl s, fun st e h => by cases h⟩

theorem stepSpec_andThen {buffer : List Nat}
    {f g : St → Except (ParserStatus × St) St}
    (hf : stepSpec buffer f) (hg : stepSpec buffer g) :
    stepSpec buffer (fun s => andThen (f s) g) := by
  intro s
  constructor
  · intro s' h
    obtain ⟨s1, h1, h2⟩ := andThen_ok_elim h
    exact boundsFrom_trans ((hf s).1 s1 h1) ((hg s1).1 s' h2)
  · intro st e h
    rcases andThen_error_elim h with h1 | ⟨s1, h1, h2⟩
    · exact (hf s).2 st e h1
    · exact (hg s1).2 st e h2

theorem chapterChain_stepSpec (buffer : List Nat)
    (c1 c2 c3 c4 c5 c6 c7 c8 : Prop)
    [Decidable c1] [Decidable c2] [Decidable c3] [Decidable c4]
    [Decidable c5] [Decidable c6] [Decidable c7] [Decidable c8] :
    stepSpec buffer (fun s0 =>
      andThen (if c1 then chapterP buffer s0 else .ok s0) fun s1 =>
      andThen (if c2 then chapterC buffer s1 else .ok s1) fun s2 =>
      andThen (if c3 then chapterM buffer s2 else .ok s2) fun s3 =>
      andThen (if c4 then chapterW buffer s3 else .ok s3) fun s4 =>
      andThen (if c5 then chapterN buffer s4 else .ok s4) fun s5 =>
      andThen (if c6 then chapterE buffer s5 else .ok s5) fun s6 =>
      andThen (if c7 then chapterT buffer s6 else .ok s6) fun s7 =>
      andThen (if c8 then chapterA buffer s7 else .ok s7) fun s8 =>
      .ok s8) :=
  stepSpec_andThen (stepSpec_cond buffer c1 (chapterP_stepSpec buffer))
    (stepSpec_andThen (stepSpec_cond buffer c2 (chapterC_stepSpec buffer))
      (stepSpec_andThen (stepSpec_cond buffer c3 (chapterM_stepSpec buffer))
        (stepSpec_andThen (stepSpec_cond buffer c4 (chapterW_stepSpec buffer))
          (stepSpec_andThen (stepSpec_cond buffer c5 (chapterN_stepSpec buffer))
            (stepSpec_andThen (stepSpec_cond buffer c6 (chapterE_stepSpec buffer))
              (stepSpec_andThen (stepSpec_cond buffer c7 (chapterT_stepSpec buffer))
                (stepSpec_andThen (stepSpec_cond buffer c8 (chapterA_stepSpec buffer))
                  (stepSpec_pure buffer))))))))

theorem channelIteration_spec (buffer : List Nat) (s : St) :
    (∀ s', channelIteration buffer s = .ok s' →
        s.i + 3 ≤ s'.i ∧ s.minimumLen ≤ s'.minimumLen ∧
          s'.minimumLen + (s.i + 3) ≤ s.minimumLen + s'.i) ∧
    (∀ st e, channelIteration buffer s = .error (st, e) → errP buffer st e) := by
  have h := chapterChain_stepSpec buffer
      ((peek buffer s.i * 16777216 + peek buffer (s.i + 1) * 65536 +
          peek buffer (s.i + 2) * 256) &&& RTP_MIDI_CJ_FLAG_P ≠ 0)
      ((peek buffer s.i * 16777216 + peek buffer (s.i + 1) * 65536 +
          peek buffer (s.i + 2) * 256) &&& RTP_MIDI_CJ_FLAG_C ≠ 0)
      ((peek buffer s.i * 16777216 + peek buffer (s.i + 1) * 65536 +
          peek buffer (s.i + 2) * 256) &&& RTP_MIDI_CJ_FLAG_M ≠ 0)
      ((peek buffer s.i * 16777216 + peek buffer (s.i + 1) * 65536 +
          peek buffer (s.i + 2) * 256) &&& RTP_MIDI_CJ_FLAG_W ≠ 0)
      ((peek buffer s.i * 16777216 + peek buffer (s.i + 1) * 65536 +
          peek buffer (s.i + 2) * 256) &&& RTP_MIDI_CJ_FLAG_N ≠ 0)
      ((peek buffer s.i * 16777216 + peek buffer (s.i + 1) * 65536 +
          peek buffer (s.i + 2) * 256) &&& RTP_MIDI_CJ_FLAG_E ≠ 0)
      ((peek buffer s.i * 16777216 + peek buffer (s.i + 1) * 65536 +
          peek buffer (s.i + 2) * 256) &&& RTP_MIDI_CJ_FLAG_T ≠ 0)
      ((peek buffer s.i * 16777216 + peek buffer (s.i + 1) * 65536 +
          peek buffer (s.i + 2) * 256) &&& RTP_MIDI_CJ_FLAG_A ≠ 0)
      ⟨s.i + 3, s.minimumLen⟩
  constructor
  · intro s' hok
    have hb := h.1 s' hok
    obtain ⟨b1, b2, b3⟩ := hb
    dsimp only at b1 b2 b3
    exact ⟨b1, b2, by omega⟩
  · intro st e herr
    exact h.2 st e herr

theorem channelLoop_ok (buffer : List Nat) :
    ∀ n s s', channelLoop buffer n s = .ok s' →
      boundsFrom s s' ∧
        (1 ≤ n → s.i + 3 ≤ s'.i ∧
          s'.minimumLen + (s.i + 3) ≤ s.minimumLen + s'.i) := by
  intro n
  induction n with
  | zero =>
    intro s s' h
    simp only [channelLoop] at h
    cases h
    exact ⟨boundsFrom_refl s, fun h1 => absurd h1 (by omega)⟩
  | succ n ih =>
    intro s s' h
    simp only [channelLoop] at h
    cases hit : channelIteration buffer s with
    | error pe => rw [hit] at h; cases h
    | ok s1 =>
      rw [hit] at h
      obtain ⟨a1, a2, a3⟩ := (channelIteration_spec buffer s).1 s1 hit
      obtain ⟨⟨b1, b2, b3⟩, -⟩ := ih s1 s' h
      exact ⟨⟨by omega, by omega, by omega⟩, fun _ => ⟨by omega, by omega⟩⟩

theorem channelLoop_error (buffer : List Nat) :
    ∀ n s st e, channelLoop buffer n s = .error (st, e) → errP buffer st e := by
  intro n
  induction n with
  | zero =>
    intro s st e h
    simp only [channelLoop] at h
    cases h
  | succ n ih =>
    intro s st e h
    simp only [channelLoop] at h
    cases hit : channelIteration buffer s with
    | error pe =>
      rw [hit] at h
      cases h
      exact (channelIteration_spec buffer s).2 st e hit
    | ok s1 =>
      rw [hit] at h
      exact ih s1 st e h

theorem decode_cases (buffer : List Nat) (i m : Nat) :
    ∀ res : DecodeResult, decodeJournalSection buffer i m = res →
      (∀ st, res.ret = some st → errP buffer st ⟨res.i, res.minimumLen⟩) ∧
      (res.ret = none →
        i ≤ res.i ∧ m ≤ res.minimumLen ∧ res.minimumLen + i ≤ m + res.i) := by
  unfold decodeJournalSection
  cases hr1 : require buffer.length 1 ⟨i, m⟩ with
  | error pe =>
    obtain ⟨st0, e0⟩ := pe
    obtain ⟨hc, hst0, he0⟩ := require_error hr1
    subst he0
    subst hst0
    intro res hres
    subst hres
    dsimp only at hc ⊢
    constructor
    · intro st hst
      cases hst
      exact .inl ⟨rfl, by dsimp only; omega⟩
    · intro h
      cases h
  | ok s0 =>
    obtain ⟨hc1, rfl⟩ := require_ok hr1
    dsimp only
    cases hr2 : require buffer.length 2 ⟨i + 1, m + 1⟩ with
    | error pe =>
      obtain ⟨st0, e0⟩ := pe
      obtain ⟨hc2, hst0, he0⟩ := require_error hr2
      subst he0
      subst hst0
      intro res hres
      subst hres
      dsimp only at hc2 ⊢
      constructor
      · intro st hst
        cases hst
        exact .inl ⟨rfl, by dsimp only; omega⟩
      · intro h
        cases h
    | ok s2 =>
      obtain ⟨hc2, rfl⟩ := require_ok hr2
      dsimp only
      by_cases hA : peek buffer i &&& RTP_MIDI_JS_FLAG_A ≠ 0
      · rw [if_pos hA]
        cases hr3 : require buffer.length 3 ⟨i + 3, m + 1 + 2⟩ with
        | error pe =>
          obtain ⟨st0, e0⟩ := pe
          obtain ⟨hc3, hst0, he0⟩ := require_error hr3
          subst he0
          subst hst0
          intro res hres
          subst hres
          dsimp only at hc3 ⊢
          constructor
          · intro st hst
            cases hst
            exact .inl ⟨rfl, by dsimp only; omega⟩
          · intro h
            cases h
        | ok s4 =>
          obtain ⟨hc3, rfl⟩ := require_ok hr3
          dsimp only
          cases hloop : channelLoop buffer
              ((peek buffer i &&& RTP_MIDI_JS_MASK_TOTALCHANNELS) + 1)
              ⟨i + 3, m + 1 + 2 + 3⟩ with
          | error pe =>
            obtain ⟨st0, e0⟩ := pe
            intro res hres
            subst hres
            have herr := channelLoop_error buffer _ _ st0 e0 hloop
            constructor
            · intro st hst
              cases hst
              exact herr
            · intro h
              cases h
          | ok s5 =>
            intro res hres
            subst hres
            obtain ⟨⟨b1, b2, b3⟩, hge⟩ := channelLoop_ok buffer _ _ _ hloop
            obtain ⟨g1, g2⟩ := hge (by omega)
            constructor
            · intro st hst
              cases hst
            · intro h
              dsimp only at b1 b2 b3 g1 g2 ⊢
              omega
      · rw [if_neg hA]
        intro res hres
        subst hres
        constructor
        · intro st hst
          cases hst
        · intro h
          dsimp only
          omega

/-- Claim C1, counterexample: under the spec's normative top-header
layout S|Y|A|H|TOTCHAN, byte 0x80 sets S, not A, so on the claim's
8-byte input the decoder never enters the channel loop: it stops after
the 3 top-header bytes (cursor advanced by 3, not 8), and with only 7
bytes it still completes instead of returning NotEnoughData. -/
theorem claim1_counterexample :
    (decodeJournalSection [0x80, 0x00, 0x01, 0x00, 0x00, 0x10, 0x00, 0x00] 0 0).i = 3 ∧
    (decodeJournalSection [0x80, 0x00, 0x01, 0x00, 0x00, 0x10, 0x00] 0 0).ret ≠
      some ParserStatus.PARSER_NOT_ENOUGH_DATA := by
  decide

/-- Claim C1, amended: with top header byte 0x20 (the A flag under the
S|Y|A|H|TOTCHAN layout, TOTCHAN=0 so totalChannels=1), checkpoint
0x0001, and one channel-flags field with only the W bit set and
LENGTH=0, the decoder requires exactly 8 bytes: with 8 bytes every check
passes and control falls off the end of the function (the success path;
there is no explicit Ok return) with the cursor advanced by 8, and with
7 bytes it returns PARSER_NOT_ENOUGH_DATA. -/
theorem claim1_amended :
    decodeJournalSection [0x20, 0x00, 0x01, 0x00, 0x00, 0x10, 0x00, 0x00] 0 0 =
      ⟨none, 8, 8⟩ ∧
    decodeJournalSection [0x20, 0x00, 0x01, 0x00, 0x00, 0x10, 0x00] 0 0 =
      ⟨some .PARSER_NOT_ENOUGH_DATA, 6, 8⟩ := by
  decide

/-- Claim C3, counterexample: on the empty input the very first length
check fails and decodeJournalSection returns PARSER_NOT_ENOUGH_DATA, but
the budget is NOT left as it was before the failing check: it was 0
before the call and is 1 afterwards (the source increments minimumLen
before comparing and returns with the incremented value). -/
theorem claim3_counterexample :
    (decodeJournalSection [] 0 0).ret = some ParserStatus.PARSER_NOT_ENOUGH_DATA ∧
    (decodeJournalSection [] 0 0).minimumLen ≠ 0 := by
  decide

/-- Claim C3, amended: when a length check fails, the cursor is left
exactly as it was before the failing check, while the budget is left at
its incremented value: the value before the check plus the n of the
failing check. -/
theorem claim3_amended (len n : Nat) (s : St) (h : len < s.minimumLen + n) :
    require len n s = .error (.PARSER_NOT_ENOUGH_DATA, ⟨s.i, s.minimumLen + n⟩) :=
  require_neg h

theorem claim3_witness :
    require 0 1 ⟨0, 0⟩ = .error (.PARSER_NOT_ENOUGH_DATA, ⟨0, 1⟩) :=
  claim3_amended 0 1 ⟨0, 0⟩ (by decide)

/-- Claim C4: the Chapter A decoder does not follow the claimed
require-1-then-require-logCount*2 discipline. It requires 2 bytes before
the 1-byte header read (so a 1-byte input already fails with budget +2),
and it never requires the logCount * 2 entry bytes: with header 0x00
(logCount = 1) it consumes 3 bytes while having budgeted only 2, and on
the full 8-byte journal input the decode completes with the cursor at 9 —
one byte past the end of the buffer — with a final budget of only 8. -/
theorem claim4_chapterA_budget_bug :
    chapterA [0x00] ⟨0, 0⟩ = .error (.PARSER_NOT_ENOUGH_DATA, ⟨0, 2⟩) ∧
    chapterA [0x00, 0xAA, 0xBB] ⟨0, 0⟩ = .ok ⟨3, 2⟩ ∧
    decodeJournalSection [0x20, 0x00, 0x01, 0x00, 0x00, 0x01, 0x00, 0x00] 0 0 =
      ⟨none, 9, 8⟩ := by
  refine ⟨rfl, rfl, by decide⟩

/-- Claim C5: the channel-journal loop requires its 3 header bytes only
once, before the loop, not once per iteration. On a 6-byte input with
totalChannels = 2 the decode completes with the cursor at 9 (the second
iteration read its 3 channel-flags bytes past the end of the buffer with
no length check) and a final budget of only 6; and a single loop
iteration whose three flag bytes are zero advances the cursor by 3 while
adding nothing to the budget. -/
theorem claim5_loop_single_require :
    decodeJournalSection [0x21, 0x00, 0x01, 0x00, 0x00, 0x00] 0 0 = ⟨none, 9, 6⟩ ∧
    (∀ (buffer : List Nat) (s : St),
      peek buffer s.i = 0 → peek buffer (s.i + 1) = 0 → peek buffer (s.i + 2) = 0 →
      channelIteration buffer s = .ok ⟨s.i + 3, s.minimumLen⟩) := by
  constructor
  · decide
  · intro buffer s h0 h1 h2
    simp only [channelIteration, h0, h1, h2]
    norm_num [RTP_MIDI_CJ_FLAG_P, RTP_MIDI_CJ_FLAG_C, RTP_MIDI_CJ_FLAG_M,
      RTP_MIDI_CJ_FLAG_W, RTP_MIDI_CJ_FLAG_N, RTP_MIDI_CJ_FLAG_E,
      RTP_MIDI_CJ_FLAG_T, RTP_MIDI_CJ_FLAG_A, andThen]

theorem claim5_witness :
    channelIteration [] ⟨0, 0⟩ = .ok ⟨3, 0⟩ :=
  claim5_loop_single_require.2 [] ⟨0, 0⟩ rfl rfl rfl

/-- Claim C9: each fixed-size chapter requires its fixed byte count and
advances the cursor by exactly that amount — P: 3, W: 2, T: 1 — failing
with PARSER_NOT_ENOUGH_DATA (budget incremented, cursor unchanged) when
the bytes are missing; Chapters C and M contribute zero bytes to both
the budget and the cursor. -/
theorem claim9_fixed_chapter_sizes (buffer : List Nat) (s : St) :
    (¬ buffer.length < s.minimumLen + 3 →
      chapterP buffer s = .ok ⟨s.i + 3, s.minimumLen + 3⟩) ∧
    (buffer.length < s.minimumLen + 3 →
      chapterP buffer s = .error (.PARSER_NOT_ENOUGH_DATA, ⟨s.i, s.minimumLen + 3⟩)) ∧
    (¬ buffer.length < s.minimumLen + 2 →
      chapterW buffer s = .ok ⟨s.i + 2, s.minimumLen + 2⟩) ∧
    (buffer.length < s.minimumLen + 2 →
      chapterW buffer s = .error (.PARSER_NOT_ENOUGH_DATA, ⟨s.i, s.minimumLen + 2⟩)) ∧
    (¬ buffer.length < s.minimumLen + 1 →
      chapterT buffer s = .ok ⟨s.i + 1, s.minimumLen + 1⟩) ∧
    (buffer.length < s.minimumLen + 1 →
      chapterT buffer s = .error (.PARSER_NOT_ENOUGH_DATA, ⟨s.i, s.minimumLen + 1⟩)) ∧
    chapterC buffer s = .ok s ∧
    chapterM buffer s = .ok s := by
  refine ⟨?_, ?_, ?_, ?_, ?_, ?_, rfl, rfl⟩
  · intro h
    simp only [chapterP]
    rw [require_pos h]
    rfl
  · intro h
    simp only [chapterP]
    rw [require_neg h]
    rfl
  · intro h
    simp only [chapterW]
    rw [require_pos h]
    rfl
  · intro h
    simp only [chapterW]
    rw [require_neg h]
    rfl
  · intro h
    simp only [chapterT]
    rw [require_pos h]
    rfl
  · intro h
    simp only [chapterT]
    rw [require_neg h]
    rfl

theorem claim9_witness :
    chapterP [0x00, 0x00, 0x00] ⟨0, 0⟩ = .ok ⟨3, 3⟩ ∧
    chapterP [] ⟨0, 0⟩ = .error (.PARSER_NOT_ENOUGH_DATA, ⟨0, 3⟩) ∧
    chapterW [0x00, 0x00] ⟨0, 0⟩ = .ok ⟨2, 2⟩ ∧
    chapterW [] ⟨0, 0⟩ = .error (.PARSER_NOT_ENOUGH_DATA, ⟨0, 2⟩) ∧
    chapterT [0x00] ⟨0, 0⟩ = .ok ⟨1, 1⟩ ∧
    chapterT [] ⟨0, 0⟩ = .error (.PARSER_NOT_ENOUGH_DATA, ⟨0, 1⟩) ∧
    chapterC [] ⟨5, 7⟩ = .ok ⟨5, 7⟩ ∧
    chapterM [] ⟨5, 7⟩ = .ok ⟨5, 7⟩ := by
  have h1 := claim9_fixed_chapter_sizes [0x00, 0x00, 0x00] ⟨0, 0⟩
  have h2 := claim9_fixed_chapter_sizes [] ⟨0, 0⟩
  have h3 := claim9_fixed_chapter_sizes [0x00, 0x00] ⟨0, 0⟩
  have h4 := claim9_fixed_chapter_sizes [0x00] ⟨0, 0⟩
  have h5 := claim9_fixed_chapter_sizes [] ⟨5, 7⟩
  exact ⟨h1.1 (by decide), h2.2.1 (by decide), h3.2.2.1 (by decide),
    h2.2.2.2.1 (by decide), h4.2.2.2.2.1 (by decide),
    h2.2.2.2.2.2.1 (by decide), h5.2.2.2.2.2.2.1, h5.2.2.2.2.2.2.2⟩

/-- Claim C6: the Chapter E decoder computes
log_count = (header & lengthMask) + 1, raising and checking the budget
both before the header read (1 byte) and before the entry walk
(log_count * 2 bytes); header 0x00 yields log_count 1 (chapter size 3),
and a header with length field 4 yields log_count 5, the chapter
consuming 1 + 10 bytes. -/
theorem claim6_chapterE_log_count :
    (∀ (buffer : List Nat) (s : St), buffer.length < s.minimumLen + 1 →
      chapterE buffer s = .error (.PARSER_NOT_ENOUGH_DATA, ⟨s.i, s.minimumLen + 1⟩)) ∧
    (∀ (buffer : List Nat) (s : St), ¬ buffer.length < s.minimumLen + 1 →
      buffer.length < s.minimumLen + 1 +
        ((peek buffer s.i &&& RTP_MIDI_CJ_CHAPTER_E_MASK_LENGTH) + 1) * 2 →
      chapterE buffer s = .error (.PARSER_NOT_ENOUGH_DATA,
        ⟨s.i + 1, s.minimumLen + 1 +
          ((peek buffer s.i &&& RTP_MIDI_CJ_CHAPTER_E_MASK_LENGTH) + 1) * 2⟩)) ∧
    (∀ (buffer : List Nat) (s : St), ¬ buffer.length < s.minimumLen + 1 →
      ¬ buffer.length < s.minimumLen + 1 +
        ((peek buffer s.i &&& RTP_MIDI_CJ_CHAPTER_E_MASK_LENGTH) + 1) * 2 →
      chapterE buffer s = .ok
        ⟨s.i + 1 + ((peek buffer s.i &&& RTP_MIDI_CJ_CHAPTER_E_MASK_LENGTH) + 1) * 2,
          s.minimumLen + 1 +
            ((peek buffer s.i &&& RTP_MIDI_CJ_CHAPTER_E_MASK_LENGTH) + 1) * 2⟩) ∧
    chapterE [0x00, 0x01, 0x02] ⟨0, 0⟩ = .ok ⟨3, 3⟩ ∧
    chapterE [0x04, 0, 0, 0, 0, 0, 0, 0, 0, 0, 0] ⟨0, 0⟩ = .ok ⟨11, 11⟩ := by
  refine ⟨?_, ?_, ?_, rfl, rfl⟩
  · intro buffer s h
    simp only [chapterE]
    rw [require_neg h]
    rfl
  · intro buffer s h1 h2
    simp only [chapterE]
    rw [require_pos h1]
    dsimp only [andThen]
    rw [require_neg (show buffer.length <
      (⟨s.i + 1, s.minimumLen + 1⟩ : St).minimumLen +
        ((peek buffer s.i &&& RTP_MIDI_CJ_CHAPTER_E_MASK_LENGTH) + 1) * 2 from h2)]
  · intro buffer s h1 h2
    simp only [chapterE]
    rw [require_pos h1]
    dsimp only [andThen]
    rw [require_pos (show ¬ buffer.length <
      (⟨s.i + 1, s.minimumLen + 1⟩ : St).minimumLen +
        ((peek buffer s.i &&& RTP_MIDI_CJ_CHAPTER_E_MASK_LENGTH) + 1) * 2 from h2)]

theorem claim6_witness :
    chapterE [] ⟨0, 0⟩ = .error (.PARSER_NOT_ENOUGH_DATA, ⟨0, 1⟩) ∧
    chapterE [0x00] ⟨0, 0⟩ = .error (.PARSER_NOT_ENOUGH_DATA, ⟨1, 3⟩) ∧
    chapterE [0x00, 0x01, 0x02] ⟨0, 0⟩ = .ok ⟨3, 3⟩ :=
  ⟨claim6_chapterE_log_count.1 [] ⟨0, 0⟩ (by decide),
    claim6_chapterE_log_count.2.1 [0x00] ⟨0, 0⟩ (by decide) (by decide),
    claim6_chapterE_log_count.2.2.1 [0x00, 0x01, 0x02] ⟨0, 0⟩ (by decide) (by decide)⟩

/-- Claim C2: the Chapter N decoder's header rules. For low <= high the
offbit count is high - low + 1; the sentinel pairs (15,0) and (15,1)
give offbit count 0; every other low > high pair makes chapterN return
PARSER_UNEXPECTED_DATA; and a header with logListCount = 127 and
(low, high) = (15, 0) is reinterpreted as 128 log entries, the chapter
then requiring 128 * 2 + 0 = 256 additional bytes. -/
theorem claim2_chapterN_header_rules :
    (∀ low high : Nat, low ≤ high →
      chapterN_offbitCount low high = some (high - low + 1)) ∧
    chapterN_offbitCount 15 0 = some 0 ∧
    chapterN_offbitCount 15 1 = some 0 ∧
    (∀ low high : Nat, high < low → ¬(low = 15 ∧ high = 0) →
      ¬(low = 15 ∧ high = 1) → chapterN_offbitCount low high = none) ∧
    (∀ (buffer : List Nat) (s : St), ¬ buffer.length < s.minimumLen + 2 →
      chapterN_offbitCount
          (((peek buffer s.i * 256 + peek buffer (s.i + 1)) &&&
            RTP_MIDI_CJ_CHAPTER_N_MASK_LOW) >>> 4)
          ((peek buffer s.i * 256 + peek buffer (s.i + 1)) &&&
            RTP_MIDI_CJ_CHAPTER_N_MASK_HIGH) = none →
      chapterN buffer s = .error (.PARSER_UNEXPECTED_DATA, ⟨s.i + 2, s.minimumLen + 2⟩)) ∧
    (∀ (buffer : List Nat) (s : St), ¬ buffer.length < s.minimumLen + 2 →
      ((peek buffer s.i * 256 + peek buffer (s.i + 1)) &&&
        RTP_MIDI_CJ_CHAPTER_N_MASK_LENGTH) >>> 8 = 127 →
      ((peek buffer s.i * 256 + peek buffer (s.i + 1)) &&&
        RTP_MIDI_CJ_CHAPTER_N_MASK_LOW) >>> 4 = 15 →
      (peek buffer s.i * 256 + peek buffer (s.i + 1)) &&&
        RTP_MIDI_CJ_CHAPTER_N_MASK_HIGH = 0 →
      chapterN buffer s =
        if buffer.length < s.minimumLen + 2 + 256 then
          .error (.PARSER_NOT_ENOUGH_DATA, ⟨s.i + 2, s.minimumLen + 2 + 256⟩)
        else .ok ⟨s.i + 2 + 256, s.minimumLen + 2 + 256⟩) := by
  refine ⟨?_, rfl, rfl, ?_, ?_, ?_⟩
  · intro low high h
    simp only [chapterN_offbitCount, if_pos h]
  · intro low high h1 h2 h3
    exact chapterN_offbitCount_eq_none.mpr ⟨h1, h2, h3⟩
  · intro buffer s hlen hnone
    simp only [chapterN]
    rw [require_pos hlen]
    dsimp only [andThen]
    rw [hnone]
  · intro buffer s hlen h127 h15 h0
    simp only [chapterN]
    rw [require_pos hlen]
    dsimp only [andThen]
    rw [h127, h15, h0]
    norm_num [chapterN_offbitCount, require]
    split_ifs with h <;> rfl

theorem claim2_witness :
    chapterN_offbitCount 2 2 = some 1 ∧
    chapterN [0x00, 0x53] ⟨0, 0⟩ = .error (.PARSER_UNEXPECTED_DATA, ⟨2, 2⟩) ∧
    chapterN [0x7F, 0xF0] ⟨0, 0⟩ = .error (.PARSER_NOT_ENOUGH_DATA, ⟨2, 258⟩) :=
  ⟨claim2_chapterN_header_rules.1 2 2 (by decide),
    claim2_chapterN_header_rules.2.2.2.2.1 [0x00, 0x53] ⟨0, 0⟩ (by decide) (by decide),
    (claim2_chapterN_header_rules.2.2.2.2.2 [0x7F, 0xF0] ⟨0, 0⟩ (by decide)
      (by decide) (by decide) (by decide)).trans (by norm_num)⟩

/-- Claim C7: PARSER_UNEXPECTED_DATA arises exactly from an illegal
Chapter N header. Whenever decodeJournalSection returns it, the bytes at
the final cursor position minus 2 form a Chapter N header with
low > high outside the sentinel pairs (15,0)/(15,1); conversely, the
Chapter N decoder returns PARSER_UNEXPECTED_DATA (with cursor and budget
advanced by exactly the 2 header bytes) precisely when its length check
passes and the header at the cursor is such an illegal one; and no
Chapter N early return with any other state carries that status. -/
theorem claim7_unexpected_iff_badN (buffer : List Nat) (i m : Nat) :
    ((decodeJournalSection buffer i m).ret = some ParserStatus.PARSER_UNEXPECTED_DATA →
      2 ≤ (decodeJournalSection buffer i m).i ∧
        badNHeaderAt buffer ((decodeJournalSection buffer i m).i - 2)) ∧
    (∀ s : St,
      chapterN buffer s =
          .error (.PARSER_UNEXPECTED_DATA, ⟨s.i + 2, s.minimumLen + 2⟩) ↔
        (¬ buffer.length < s.minimumLen + 2 ∧ badNHeaderAt buffer s.i)) ∧
    (∀ (s e : St), chapterN buffer s = .error (.PARSER_UNEXPECTED_DATA, e) →
      badNHeaderAt buffer s.i ∧ e = ⟨s.i + 2, s.minimumLen + 2⟩) := by
  have hfwd : ∀ s e : St,
      chapterN buffer s = .error (.PARSER_UNEXPECTED_DATA, e) →
        ¬ buffer.length < s.minimumLen + 2 ∧ badNHeaderAt buffer s.i ∧
          e = ⟨s.i + 2, s.minimumLen + 2⟩ := by
    intro s e h
    rcases andThen_error_elim h with hr | ⟨s1, hr, hf⟩
    · obtain ⟨-, hst, -⟩ := require_error hr
      cases hst
    · obtain ⟨hc, rfl⟩ := require_ok hr
      dsimp only at hf
      revert hf
      cases hoff : chapterN_offbitCount
          (((peek buffer s.i * 256 + peek buffer (s.i + 1)) &&&
            RTP_MIDI_CJ_CHAPTER_N_MASK_LOW) >>> 4)
          ((peek buffer s.i * 256 + peek buffer (s.i + 1)) &&&
            RTP_MIDI_CJ_CHAPTER_N_MASK_HIGH) with
      | none =>
        intro hf
        cases hf
        refine ⟨hc, ?_, rfl⟩
        have hbad := chapterN_offbitCount_eq_none.mp hoff
        simpa [badNHeaderAt] using hbad
      | some offbitCount =>
        intro hf
        rcases andThen_error_elim hf with hr2 | ⟨s2, hr2, hf2⟩
        · obtain ⟨-, hst2, -⟩ := require_error hr2
          cases hst2
        · cases hf2
  refine ⟨?_, ?_, ?_⟩
  · intro h
    have hspec := (decode_cases buffer i m (decodeJournalSection buffer i m) rfl).1
      ParserStatus.PARSER_UNEXPECTED_DATA h
    rcases hspec with ⟨hst, -⟩ | ⟨-, h2, hbad⟩
    · cases hst
    · exact ⟨h2, hbad⟩
  · intro s
    constructor
    · intro h
      obtain ⟨hc, hbad, -⟩ := hfwd s ⟨s.i + 2, s.minimumLen + 2⟩ h
      exact ⟨hc, hbad⟩
    · rintro ⟨hc, hbad⟩
      simp only [chapterN]
      rw [require_pos hc]
      dsimp only [andThen]
      rw [chapterN_offbitCount_eq_none.mpr (by simpa [badNHeaderAt] using hbad)]
  · intro s e h
    obtain ⟨-, hbad, he⟩ := hfwd s e h
    exact ⟨hbad, he⟩

theorem claim7_witness :
    badNHeaderAt [0x20, 0x00, 0x01, 0x00, 0x00, 0x08, 0x00, 0x53] 6 ∧
    chapterN [0x00, 0x53] ⟨0, 0⟩ = .error (.PARSER_UNEXPECTED_DATA, ⟨2, 2⟩) := by
  have h := claim7_unexpected_iff_badN [0x20, 0x00, 0x01, 0x00, 0x00, 0x08, 0x00, 0x53] 0 0
  have h2 := claim7_unexpected_iff_badN [0x00, 0x53] 0 0
  exact ⟨(h.1 (by decide)).2, (h2.2.1 ⟨0, 0⟩).mpr ⟨by decide, by unfold badNHeaderAt; decide⟩⟩

/-- Claim C8: on every input on which decodeJournalSection completes the
decode (falls through with no status), the budget only ever grows —
every chapter and loop step adds a non-negative amount — and its total
growth never exceeds the cursor advance; stated additively: the final
budget plus the initial cursor is at most the initial budget plus the
final cursor. -/
theorem claim8_budget_monotone_bounded (buffer : List Nat) (i m : Nat) :
    ((decodeJournalSection buffer i m).ret = none →
      i ≤ (decodeJournalSection buffer i m).i ∧
        m ≤ (decodeJournalSection buffer i m).minimumLen ∧
        (decodeJournalSection buffer i m).minimumLen + i ≤
          m + (decodeJournalSection buffer i m).i) ∧
    (∀ s s' : St, channelIteration buffer s = .ok s' →
      s.minimumLen ≤ s'.minimumLen ∧ s.i ≤ s'.i) := by
  constructor
  · intro h
    exact (decode_cases buffer i m (decodeJournalSection buffer i m) rfl).2 h
  · intro s s' h
    obtain ⟨h1, h2, -⟩ := (channelIteration_spec buffer s).1 s' h
    exact ⟨h2, by omega⟩

theorem claim8_witness :
    0 ≤ (decodeJournalSection [0x20, 0x00, 0x01, 0x00, 0x00, 0x10, 0x00, 0x00] 0 0).i ∧
    0 ≤ (decodeJournalSection [0x20, 0x00, 0x01, 0x00, 0x00, 0x10, 0x00, 0x00] 0 0).minimumLen ∧
    (decodeJournalSection [0x20, 0x00, 0x01, 0x00, 0x00, 0x10, 0x00, 0x00] 0 0).minimumLen + 0 ≤
      0 + (decodeJournalSection [0x20, 0x00, 0x01, 0x00, 0x00, 0x10, 0x00, 0x00] 0 0).i :=
  (claim8_budget_monotone_bounded
    [0x20, 0x00, 0x01, 0x00, 0x00, 0x10, 0x00, 0x00] 0 0).1 (by decide)

/-- Claim C10: decodeJournalSection has no success return. Every
explicit return is PARSER_NOT_ENOUGH_DATA (issued exactly when the
available length is below the final budget) or PARSER_UNEXPECTED_DATA;
every execution that decodes the journal completely falls off the end
of the function body with no defined status (modelled as ret = none):
in particular the whole A = 0 case, and every A = 1 run whose channel
loop completes. -/
theorem claim10_no_success_return (buffer : List Nat) (i m : Nat) :
    ((decodeJournalSection buffer i m).ret = some ParserStatus.PARSER_NOT_ENOUGH_DATA →
      buffer.length < (decodeJournalSection buffer i m).minimumLen) ∧
    (peek buffer i &&& RTP_MIDI_JS_FLAG_A = 0 → ¬ buffer.length < m + 3 →
      decodeJournalSection buffer i m = ⟨none, i + 3, m + 3⟩) ∧
    (∀ s' : St, peek buffer i &&& RTP_MIDI_JS_FLAG_A ≠ 0 → ¬ buffer.length < m + 6 →
      channelLoop buffer ((peek buffer i &&& RTP_MIDI_JS_MASK_TOTALCHANNELS) + 1)
          ⟨i + 3, m + 6⟩ = .ok s' →
      decodeJournalSection buffer i m = ⟨none, s'.i, s'.minimumLen⟩) := by
  refine ⟨?_, ?_, ?_⟩
  · intro h
    have hspec := (decode_cases buffer i m (decodeJournalSection buffer i m) rfl).1
      ParserStatus.PARSER_NOT_ENOUGH_DATA h
    rcases hspec with ⟨-, hlt⟩ | ⟨hst, -⟩
    · exact hlt
    · cases hst
  · intro hA hlen
    simp only [decodeJournalSection]
    rw [require_pos (show ¬ buffer.length < (⟨i, m⟩ : St).minimumLen + 1 by
      dsimp only; omega)]
    dsimp only
    rw [require_pos (show ¬ buffer.length < (⟨i + 1, m + 1⟩ : St).minimumLen + 2 by
      dsimp only; omega)]
    dsimp only
    rw [if_neg (show ¬ peek buffer i &&& RTP_MIDI_JS_FLAG_A ≠ 0 from by
      simp [hA])]
  · intro s' hA hlen hloop
    simp only [decodeJournalSection]
    rw [require_pos (show ¬ buffer.length < (⟨i, m⟩ : St).minimumLen + 1 by
      dsimp only; omega)]
    dsimp only
    rw [require_pos (show ¬ buffer.length < (⟨i + 1, m + 1⟩ : St).minimumLen + 2 by
      dsimp only; omega)]
    dsimp only
    rw [if_pos hA]
    rw [require_pos (show ¬ buffer.length < (⟨i + 3, m + 1 + 2⟩ : St).minimumLen + 3 by
      dsimp only; omega)]
    dsimp only
    rw [show channelLoop buffer
        ((peek buffer i &&& RTP_MIDI_JS_MASK_TOTALCHANNELS) + 1)
        ⟨i + 3, m + 1 + 2 + 3⟩ = .ok s' from hloop]

theorem claim10_witness :
    decodeJournalSection [0x00, 0x00, 0x00] 0 0 = ⟨none, 3, 3⟩ ∧
    decodeJournalSection [0x20, 0x00, 0x01, 0x00, 0x00, 0x00] 0 0 = ⟨none, 6, 6⟩ := by
  have h1 := claim10_no_success_return [0x00, 0x00, 0x00] 0 0
  have h2 := claim10_no_success_return [0x20, 0x00, 0x01, 0x00, 0x00, 0x00] 0 0
  exact ⟨h1.2.1 (by decide) (by decide),
    h2.2.2 ⟨6, 6⟩ (by decide) (by decide) (by rfl)⟩

end RTPMIDI
